import Mathlib

/-!
Verification of the IS-IS northbound configuration handlers
(src/isisd/isis_northbound.c).

The handlers are embedded shallowly: each northbound callback becomes a
Lean function over explicit state.  The northbound framework passes every
callback an event (enum nb_event); handlers that act only at NB_EV_APPLY
keep their early-return structure.  The dotted network-address text is
decoded by the excluded parsing collaborator (dotformat2buff), so address
arguments here are the decoded raw byte lists.  Collaborator calls that
only mutate remote protocol machinery (isis_csm_state_change,
isis_area_passwd_cleartext_set, ...) are embedded as emitted action values
so that the sequence of calls a handler performs is visible in its result.
-/

namespace IsisNb

/-- Northbound callback phases (enum nb_event in lib/northbound.h). -/
inductive NbEvent
  | validate
  | prepare
  | abort
  | apply
deriving DecidableEq

/-- Northbound callback results used by this file (enum nb_error):
NB_OK, NB_ERR_VALIDATION, NB_ERR_INCONSISTENCY. -/
inductive NbRes
  | ok
  | err_validation
  | err_inconsistency
deriving DecidableEq

/-- ISIS_SYS_ID_LEN: a System-ID is 6 bytes. -/
def ISIS_SYS_ID_LEN : Nat := 6

/-- ISIS_NSEL_LEN: one selector (NSEL) byte. -/
def ISIS_NSEL_LEN : Nat := 1

/-- IS_LEVEL_1 flag bit. -/
def IS_LEVEL_1 : Nat := 1

/-- IS_LEVEL_2 flag bit. -/
def IS_LEVEL_2 : Nat := 2

/-- IS_LEVEL_1_AND_2 = both level bits. -/
def IS_LEVEL_1_AND_2 : Nat := 3

/-- struct area_addr: a decoded area address.  In C the byte buffer is a
fixed array that physically retains all decoded bytes even after
addr_len is decremented to strip the System-ID suffix, so area_addr here
is the full decoded byte list and addr_len the (possibly stripped)
length field. -/
structure AreaAddr where
  addr_len : Nat
  area_addr : List Nat
deriving DecidableEq

/-- The System-ID portion of the global struct isis: the 6-byte sysid
buffer and the sysid_set flag. -/
structure IsisRouter where
  sysid : List Nat
  sysid_set : Bool
deriving DecidableEq

/-- Modelled from the spec: the GETSYSID accessor (isisd/isisd.h, not under
src/) yields the System-ID embedded in an area address; per the spec the
address's trailing suffix is "a System-ID plus one selector byte", so the
System-ID is the 6 bytes that start ISIS_SYS_ID_LEN + ISIS_NSEL_LEN bytes
before the end of the address. -/
def GETSYSID (a : AreaAddr) : List Nat :=
  (a.area_addr.drop (a.addr_len - ISIS_SYS_ID_LEN - ISIS_NSEL_LEN)).take ISIS_SYS_ID_LEN

/-- One configured IS-IS area (the fields of struct isis_area that the
handlers in this file touch). -/
structure IsisArea where
  area_tag : String
  area_addrs : List AreaAddr
  is_type : Nat
  attached_bit : Bool
  overload_bit : Bool
  oldmetric : Bool
  newmetric : Bool
deriving DecidableEq

/-- NB_EV_VALIDATE arm of isis_instance_area_address_create: reject a
nonzero NSEL (last) byte, and, when the System-ID is already fixed, reject
an address whose System-ID portion differs from it. -/
def isis_instance_area_address_create_validate (isis : IsisRouter)
    (bytes : List Nat) : NbRes :=
  let addr : AreaAddr := ⟨bytes.length, bytes⟩
  if addr.area_addr.getD (addr.addr_len - 1) 0 ≠ 0 then
    .err_validation
  else if isis.sysid_set = true ∧ isis.sysid ≠ GETSYSID addr then
    .err_validation
  else
    .ok

/-- The duplicate-address comparison in the NB_EV_APPLY arm of
isis_instance_area_address_create: a stored record matches the staged one
when its stripped length plus the System-ID and NSEL lengths equals the
staged length and memcmp over the staged length finds the buffers equal. -/
def dup_match (addrp addrr : AreaAddr) : Bool :=
  (addrp.addr_len + ISIS_SYS_ID_LEN + ISIS_NSEL_LEN == addrr.addr_len)
    && (addrp.area_addr.take addrr.addr_len == addrr.area_addr.take addrr.addr_len)

/-- Result of an area-address create or delete apply: the callback result
together with the updated router identity and updated area. -/
structure AddrOut where
  res : NbRes
  isis : IsisRouter
  area : IsisArea
deriving DecidableEq

/-- NB_EV_APPLY arm of isis_instance_area_address_create.  addrr is the
record staged at NB_EV_PREPARE (decoded length and bytes).  When the
System-ID is not yet set it is copied from the staged address and marked
set; otherwise an exact duplicate is a silent no-op.  In all other cases
the record's System-ID+NSEL suffix is stripped from its length field and
the record appended to the area's address list (the subsequent
lsp_generate calls are fire-and-forget collaborator work). -/
def isis_instance_area_address_create_apply (isis : IsisRouter)
    (area : IsisArea) (addrr : AreaAddr) : AddrOut :=
  if isis.sysid_set = false then
    let isis2 : IsisRouter := ⟨GETSYSID addrr, true⟩
    let addrr2 : AreaAddr :=
      ⟨addrr.addr_len - (ISIS_SYS_ID_LEN + ISIS_NSEL_LEN), addrr.area_addr⟩
    ⟨.ok, isis2, { area with area_addrs := area.area_addrs ++ [addrr2] }⟩
  else if area.area_addrs.any (fun addrp => dup_match addrp addrr) then
    ⟨.ok, isis, area⟩
  else
    let addrr2 : AreaAddr :=
      ⟨addrr.addr_len - (ISIS_SYS_ID_LEN + ISIS_NSEL_LEN), addrr.area_addr⟩
    ⟨.ok, isis, { area with area_addrs := area.area_addrs ++ [addrr2] }⟩

/-- The stored-address comparison in isis_instance_area_address_delete:
the stored record's stripped length plus ISIS_SYS_ID_LEN + 1 must equal
the decoded length, and memcmp over the decoded length must find the
buffers equal. -/
def del_match (addrp addr : AreaAddr) : Bool :=
  (addrp.addr_len + ISIS_SYS_ID_LEN + 1 == addr.addr_len)
    && (addrp.area_addr.take addr.addr_len == addr.area_addr.take addr.addr_len)

/-- The find-then-listnode_delete pattern: remove the first element
satisfying p, or return none when no element matches. -/
def remove_first {α : Type} (p : α → Bool) : List α → Option (List α)
  | [] => none
  | a :: rest => if p a then some rest else (remove_first p rest).map (a :: ·)

/-- isis_instance_area_address_delete: only NB_EV_APPLY acts.  The decoded
address is matched against the stored records; a miss is an inconsistency
error.  After removal, an empty address list zeroes the router System-ID
and clears sysid_set. -/
def isis_instance_area_address_delete (event : NbEvent) (isis : IsisRouter)
    (area : IsisArea) (bytes : List Nat) : AddrOut :=
  if event ≠ .apply then
    ⟨.ok, isis, area⟩
  else
    let addr : AreaAddr := ⟨bytes.length, bytes⟩
    match remove_first (fun addrp => del_match addrp addr) area.area_addrs with
    | none => ⟨.err_inconsistency, isis, area⟩
    | some addrs2 =>
      let area2 := { area with area_addrs := addrs2 }
      if addrs2.length = 0 then
        ⟨.ok, ⟨List.replicate ISIS_SYS_ID_LEN 0, false⟩, area2⟩
      else
        ⟨.ok, isis, area2⟩

/-- Modelled from the spec: area lookup-by-tag (isis_area_lookup in
isisd/isisd.c, not under src/), a consumed collaborator call. -/
def isis_area_lookup (areas : List IsisArea) (tag : String) : Option IsisArea :=
  areas.find? (fun a => a.area_tag == tag)

/-- Modelled from the spec: isis_area_create (isisd/isisd.c, not under
src/) constructs a new area keyed by tag with an empty address set; the
level type defaults to both levels and the metric style to new-style. -/
def isis_area_create (tag : String) : IsisArea :=
  ⟨tag, [], IS_LEVEL_1_AND_2, false, false, false, true⟩

/-- Result of isis_instance_create: the callback result, the updated area
table, and the live-object slot stored on the change node. -/
structure InstanceCreateOut where
  res : NbRes
  areas : List IsisArea
  slot : Option IsisArea
deriving DecidableEq

/-- isis_instance_create: only NB_EV_APPLY acts; an existing area with the
same tag is an inconsistency error, otherwise the area is created,
registered, and bound into the change node's slot. -/
def isis_instance_create (event : NbEvent) (area_tag : String)
    (areas : List IsisArea) : InstanceCreateOut :=
  if event ≠ .apply then
    ⟨.ok, areas, none⟩
  else
    match isis_area_lookup areas area_tag with
    | some _ => ⟨.err_inconsistency, areas, none⟩
    | none =>
      let area := isis_area_create area_tag
      ⟨.ok, areas ++ [area], some area⟩

/-- Modelled from the spec: isis_area_destroy (isisd/isisd.c, not under
src/) destroys the area registered under the tag. -/
def isis_area_destroy (areas : List IsisArea) (tag : String) : List IsisArea :=
  areas.filter (fun a => a.area_tag != tag)

/-- isis_instance_delete: only NB_EV_APPLY acts; it destroys the area by
tag. -/
def isis_instance_delete (event : NbEvent) (area_tag : String)
    (areas : List IsisArea) : NbRes × List IsisArea :=
  if event ≠ .apply then
    (.ok, areas)
  else
    (.ok, isis_area_destroy areas area_tag)

/-- isis_instance_is_type_modify: only NB_EV_APPLY acts; the level-type
setter (isis_area_is_type_set, a collaborator) records the configured
level on the area. -/
def isis_instance_is_type_modify (event : NbEvent) (ty : Nat)
    (area : IsisArea) : NbRes × IsisArea :=
  if event ≠ .apply then
    (.ok, area)
  else
    (.ok, { area with is_type := ty })

/-- isis_instance_attached_create: only NB_EV_APPLY acts; sets the
attached bit. -/
def isis_instance_attached_create (event : NbEvent) (area : IsisArea) :
    NbRes × IsisArea :=
  if event ≠ .apply then
    (.ok, area)
  else
    (.ok, { area with attached_bit := true })

/-- isis_instance_attached_delete: only NB_EV_APPLY acts; clears the
attached bit. -/
def isis_instance_attached_delete (event : NbEvent) (area : IsisArea) :
    NbRes × IsisArea :=
  if event ≠ .apply then
    (.ok, area)
  else
    (.ok, { area with attached_bit := false })

/-- isis_instance_overload_create: only NB_EV_APPLY acts; sets the
overload bit. -/
def isis_instance_overload_create (event : NbEvent) (area : IsisArea) :
    NbRes × IsisArea :=
  if event ≠ .apply then
    (.ok, area)
  else
    (.ok, { area with overload_bit := true })

/-- isis_instance_overload_delete: only NB_EV_APPLY acts; clears the
overload bit. -/
def isis_instance_overload_delete (event : NbEvent) (area : IsisArea) :
    NbRes × IsisArea :=
  if event ≠ .apply then
    (.ok, area)
  else
    (.ok, { area with overload_bit := false })

/-- The metric-style enumeration (enum isis_metric_style). -/
inductive MetricStyle
  | narrow
  | wide
  | transition
deriving DecidableEq

/-- isis_instance_metric_style_modify: only NB_EV_APPLY acts; old-style
metrics are enabled unless the style is wide, new-style unless it is
narrow. -/
def isis_instance_metric_style_modify (event : NbEvent)
    (metric_style : MetricStyle) (area : IsisArea) : NbRes × IsisArea :=
  if event ≠ .apply then
    (.ok, area)
  else
    let old_metric := if metric_style = .wide then false else true
    let new_metric := if metric_style = .narrow then false else true
    (.ok, { area with oldmetric := old_metric, newmetric := new_metric })

/-- Circuit state machine states (enum isis_circuit_state) used by the
handlers here. -/
inductive CircuitState
  | C_STATE_NA
  | C_STATE_INIT
  | C_STATE_CONF
  | C_STATE_UP
deriving DecidableEq

/-- An interface as the handlers see it: name, owning VRF name, and
whether it is operationally up. -/
structure Interface where
  name : String
  vrf : String
  operational : Bool
deriving DecidableEq

/-- The fields of struct isis_circuit the handlers in this file read: the
state-machine state, the bound interface's name, and the owning area's
tag when the circuit is bound to an area. -/
structure Circuit where
  state : CircuitState
  ifname : String
  area : Option String
deriving DecidableEq

/-- Modelled from the spec: isis_circuit_create (isisd/isis_circuit.c, not
under src/) constructs a circuit bound to the given area and interface;
per the spec the circuit enters the configured state, or the up state when
the interface is already operational. -/
def isis_circuit_create (area : IsisArea) (ifp : Interface) : Circuit :=
  ⟨if ifp.operational then .C_STATE_UP else .C_STATE_CONF, ifp.name,
    some area.area_tag⟩

/-- Outcome of lib_interface_isis_create: either the process terminates
fatally (the abort branch, or a failed assert) or the callback returns a
result together with the circuit bound into the change node's slot. -/
inductive CircuitCreateOut
  | fatal
  | done (res : NbRes) (slot : Option Circuit)
deriving DecidableEq

/-- lib_interface_isis_create: only NB_EV_APPLY acts.  A missing owning
area is an ordering-contract violation and aborts the process; otherwise
the circuit is constructed, asserted to be in the CONF or UP state, and
bound into the change node's slot. -/
def lib_interface_isis_create (event : NbEvent) (areas : List IsisArea)
    (ifp : Interface) (area_tag : String) : CircuitCreateOut :=
  if event ≠ .apply then
    .done .ok none
  else
    match isis_area_lookup areas area_tag with
    | none => .fatal
    | some area =>
      let circuit := isis_circuit_create area ifp
      if circuit.state = .C_STATE_CONF ∨ circuit.state = .C_STATE_UP then
        .done .ok (some circuit)
      else
        .fatal

/-- Events fed to the circuit state machine driver isis_csm_state_change
by lib_interface_isis_delete. -/
inductive CsmEvent
  | IF_DOWN_FROM_Z
  | ISIS_DISABLE
deriving DecidableEq

/-- Teardown steps lib_interface_isis_delete could perform: driving the
state machine, or freeing the structure directly (which the code never
does). -/
inductive TeardownAction
  | csm_state_change (e : CsmEvent)
  | free_circuit
deriving DecidableEq

/-- lib_interface_isis_delete: only NB_EV_APPLY acts.  A missing bound
circuit is an inconsistency error; otherwise the circuit is torn down by
driving its state machine with the transitions appropriate to its current
state. -/
def lib_interface_isis_delete (event : NbEvent) (slot : Option Circuit) :
    NbRes × List TeardownAction :=
  if event ≠ .apply then
    (.ok, [])
  else
    match slot with
    | none => (.err_inconsistency, [])
    | some circuit =>
      match circuit.state with
      | .C_STATE_UP =>
        (.ok, [.csm_state_change .IF_DOWN_FROM_Z, .csm_state_change .ISIS_DISABLE])
      | .C_STATE_CONF =>
        (.ok, [.csm_state_change .ISIS_DISABLE])
      | .C_STATE_INIT =>
        (.ok, [.csm_state_change .IF_DOWN_FROM_Z])
      | .C_STATE_NA =>
        (.ok, [])

/-- Modelled from the spec: interface lookup-by-name-and-vrf
(if_lookup_by_name in lib/if.c, not under src/), a consumed collaborator
call. -/
def if_lookup_by_name (interfaces : List Interface) (ifname vrfname : String) :
    Option Interface :=
  interfaces.find? (fun i => i.name == ifname && i.vrf == vrfname)

/-- Modelled from the spec: circuit lookup-by-interface
(circuit_lookup_by_ifp in isisd/isis_circuit.c, not under src/), a
consumed collaborator call over the given circuit list. -/
def circuit_lookup_by_ifp (circs : List Circuit) (ifp : Interface) :
    Option Circuit :=
  circs.find? (fun c => c.ifname == ifp.name)

/-- lib_interface_isis_area_tag_modify: only NB_EV_VALIDATE acts.  When
the interface exists and an already-bound circuit's area tag differs from
the proposed tag, validation fails; an interface lookup miss passes
vacuously. -/
def lib_interface_isis_area_tag_modify (event : NbEvent)
    (interfaces : List Interface) (init_circ_list : List Circuit)
    (ifname vrfname area_tag : String) : NbRes :=
  if event = .validate then
    match if_lookup_by_name interfaces ifname vrfname with
    | none => .ok
    | some ifp =>
      match circuit_lookup_by_ifp init_circ_list ifp with
      | none => .ok
      | some circuit =>
        match circuit.area with
        | none => .ok
        | some tag => if tag ≠ area_tag then .err_validation else .ok
  else
    .ok

/-- The configuration-tree context an address-family handler reads at
apply time: whether the ipv4-routing and ipv6-routing presence nodes
exist under the interface's isis container. -/
structure IfIsisConfig where
  ipv4_routing : Bool
  ipv6_routing : Bool
deriving DecidableEq

/-- NB_EV_APPLY arm of lib_interface_isis_ipv4_routing_create: reads the
presence of the sibling ../ipv6-routing node and calls
isis_circuit_af_set(circuit, true, ipv6); the result is the (v4, v6) pair
passed to that call. -/
def lib_interface_isis_ipv4_routing_create_af (cfg : IfIsisConfig) :
    Bool × Bool :=
  (true, cfg.ipv6_routing)

/-- NB_EV_APPLY arm of lib_interface_isis_ipv6_routing_create: the source
reads yang_dnode_exists(dnode, "../ipv6-routing") — the presence of the
ipv6-routing node itself, not of the ipv4-routing sibling — and passes it
as the v4 flag of isis_circuit_af_set(circuit, ipv4, true). -/
def lib_interface_isis_ipv6_routing_create_af (cfg : IfIsisConfig) :
    Bool × Bool :=
  (cfg.ipv6_routing, true)

/-- Refinement reference, written from the spec's words: address-family
enable consults the sibling family's current value, so ipv6-routing create
should pass (current ipv4-routing presence, true). -/
def ipv6_routing_create_af_spec (cfg : IfIsisConfig) : Bool × Bool :=
  (cfg.ipv4_routing, true)

/-- Password types (enum from the YANG model: ISIS_PASSWD_TYPE_CLEARTXT
or ISIS_PASSWD_TYPE_HMAC_MD5). -/
inductive PasswdType
  | ISIS_PASSWD_TYPE_CLEARTXT
  | ISIS_PASSWD_TYPE_HMAC_MD5
deriving DecidableEq

/-- Authentication collaborator calls the apply-finish hooks perform:
isis_area_passwd_cleartext_set or isis_area_passwd_hmac_md5_set, with the
level, password and snp-auth flag passed. -/
inductive AuthAction
  | passwd_cleartext_set (level : Nat) (passwd : String) (snp_auth : Nat)
  | passwd_hmac_md5_set (level : Nat) (passwd : String) (snp_auth : Nat)
deriving DecidableEq

/-- area_password_apply_finish: reads the final password, password-type
and authenticate-snp leaf values and performs the one derived
authentication action at level 1. -/
def area_password_apply_finish (password : String) (pass_type : PasswdType)
    (snp_auth : Nat) : List AuthAction :=
  match pass_type with
  | .ISIS_PASSWD_TYPE_CLEARTXT =>
    [.passwd_cleartext_set IS_LEVEL_1 password snp_auth]
  | .ISIS_PASSWD_TYPE_HMAC_MD5 =>
    [.passwd_hmac_md5_set IS_LEVEL_1 password snp_auth]

/-- domain_password_apply_finish: same as the area hook but at level 2. -/
def domain_password_apply_finish (password : String) (pass_type : PasswdType)
    (snp_auth : Nat) : List AuthAction :=
  match pass_type with
  | .ISIS_PASSWD_TYPE_CLEARTXT =>
    [.passwd_cleartext_set IS_LEVEL_2 password snp_auth]
  | .ISIS_PASSWD_TYPE_HMAC_MD5 =>
    [.passwd_hmac_md5_set IS_LEVEL_2 password snp_auth]

/-- isis_instance_area_password_create: the actual setting is done in
apply_finish; the handler mutates nothing and performs no action. -/
def isis_instance_area_password_create (_event : NbEvent) (area : IsisArea) :
    NbRes × IsisArea × List AuthAction :=
  (.ok, area, [])

/-- isis_instance_area_password_password_modify: no-op leaf handler; the
actual setting is done in apply_finish. -/
def isis_instance_area_password_password_modify (_event : NbEvent)
    (area : IsisArea) : NbRes × IsisArea × List AuthAction :=
  (.ok, area, [])

/-- isis_instance_area_password_password_type_modify: no-op leaf handler;
the actual setting is done in apply_finish. -/
def isis_instance_area_password_password_type_modify (_event : NbEvent)
    (area : IsisArea) : NbRes × IsisArea × List AuthAction :=
  (.ok, area, [])

/-- isis_instance_area_password_authenticate_snp_modify: no-op leaf
handler; the actual setting is done in apply_finish. -/
def isis_instance_area_password_authenticate_snp_modify (_event : NbEvent)
    (area : IsisArea) : NbRes × IsisArea × List AuthAction :=
  (.ok, area, [])

/-- isis_instance_domain_password_create: no-op leaf handler; the actual
setting is done in apply_finish. -/
def isis_instance_domain_password_create (_event : NbEvent) (area : IsisArea) :
    NbRes × IsisArea × List AuthAction :=
  (.ok, area, [])

/-- isis_instance_domain_password_password_modify: no-op leaf handler; the
actual setting is done in apply_finish. -/
def isis_instance_domain_password_password_modify (_event : NbEvent)
    (area : IsisArea) : NbRes × IsisArea × List AuthAction :=
  (.ok, area, [])

/-- isis_instance_domain_password_password_type_modify: no-op leaf
handler; the actual setting is done in apply_finish. -/
def isis_instance_domain_password_password_type_modify (_event : NbEvent)
    (area : IsisArea) : NbRes × IsisArea × List AuthAction :=
  (.ok, area, [])

/-- isis_instance_domain_password_authenticate_snp_modify: no-op leaf
handler; the actual setting is done in apply_finish. -/
def isis_instance_domain_password_authenticate_snp_modify (_event : NbEvent)
    (area : IsisArea) : NbRes × IsisArea × List AuthAction :=
  (.ok, area, [])

/-- Removing a found element shortens the list by exactly one. -/
theorem remove_first_length {α : Type} (p : α → Bool) :
    ∀ (l l2 : List α), remove_first p l = some l2 → l2.length + 1 = l.length := by
  intro l
  induction l with
  | nil => intro l2 h; simp [remove_first] at h
  | cons a rest ih =>
    intro l2 h
    by_cases hp : p a = true
    · simp [remove_first, hp] at h
      simp [← h]
    · simp [remove_first, hp] at h
      obtain ⟨l3, hl3, hcons⟩ := h
      have := ih l3 hl3
      simp [← hcons, ← this]

/-- Claim C1: for every area-address create change applied in the apply
phase while the router's System-ID is not yet set, the handler copies the
6-byte System-ID suffix of the staged address into the router identity,
sets the sysid_set flag to true, and returns success. -/
theorem c1_first_area_address_fixes_sysid (isis : IsisRouter)
    (area : IsisArea) (addrr : AreaAddr)
    (hset : isis.sysid_set = false)
    (hlen : addrr.area_addr.length = addrr.addr_len)
    (h7 : 7 ≤ addrr.addr_len) :
    (isis_instance_area_address_create_apply isis area addrr).res = .ok ∧
    (isis_instance_area_address_create_apply isis area addrr).isis.sysid
      = GETSYSID addrr ∧
    (isis_instance_area_address_create_apply isis area addrr).isis.sysid_set
      = true ∧
    (isis_instance_area_address_create_apply isis area addrr).isis.sysid.length
      = 6 := by
  unfold isis_instance_area_address_create_apply
  rw [hset]
  simp [GETSYSID, ISIS_SYS_ID_LEN, ISIS_NSEL_LEN, hlen]
  omega

/-- Witness for C1 at a concrete first address 49.0001.1921.6800.1001.00
(decoded bytes), showing the hypotheses are satisfiable. -/
theorem c1_first_area_address_fixes_sysid_witness :
    (isis_instance_area_address_create_apply ⟨[0, 0, 0, 0, 0, 0], false⟩
        (isis_area_create "A")
        ⟨10, [73, 0, 1, 25, 33, 104, 0, 16, 1, 0]⟩).res = .ok ∧
    (isis_instance_area_address_create_apply ⟨[0, 0, 0, 0, 0, 0], false⟩
        (isis_area_create "A")
        ⟨10, [73, 0, 1, 25, 33, 104, 0, 16, 1, 0]⟩).isis.sysid
      = GETSYSID ⟨10, [73, 0, 1, 25, 33, 104, 0, 16, 1, 0]⟩ ∧
    (isis_instance_area_address_create_apply ⟨[0, 0, 0, 0, 0, 0], false⟩
        (isis_area_create "A")
        ⟨10, [73, 0, 1, 25, 33, 104, 0, 16, 1, 0]⟩).isis.sysid_set = true ∧
    (isis_instance_area_address_create_apply ⟨[0, 0, 0, 0, 0, 0], false⟩
        (isis_area_create "A")
        ⟨10, [73, 0, 1, 25, 33, 104, 0, 16, 1, 0]⟩).isis.sysid.length = 6 :=
  c1_first_area_address_fixes_sysid ⟨[0, 0, 0, 0, 0, 0], false⟩
    (isis_area_create "A") ⟨10, [73, 0, 1, 25, 33, 104, 0, 16, 1, 0]⟩
    (by decide) (by decide) (by decide)

/-- Claim C2: in the validate phase, an area-address create fails when the
NSEL (last) byte of the decoded address is nonzero, fails when the
System-ID is already fixed and the address's System-ID portion differs
from it, and succeeds in all other cases. -/
theorem c2_area_address_validate (isis : IsisRouter) (bytes : List Nat)
    (h7 : 7 ≤ bytes.length) :
    (bytes.getD (bytes.length - 1) 0 ≠ 0 →
      isis_instance_area_address_create_validate isis bytes = .err_validation) ∧
    (bytes.getD (bytes.length - 1) 0 = 0 → isis.sysid_set = true →
      isis.sysid ≠ GETSYSID ⟨bytes.length, bytes⟩ →
      isis_instance_area_address_create_validate isis bytes = .err_validation) ∧
    (bytes.getD (bytes.length - 1) 0 = 0 →
      (isis.sysid_set = true → isis.sysid = GETSYSID ⟨bytes.length, bytes⟩) →
      isis_instance_area_address_create_validate isis bytes = .ok) := by
  refine ⟨?_, ?_, ?_⟩
  · intro h1
    simp only [isis_instance_area_address_create_validate]
    rw [if_pos h1]
  · intro h1 h2 h3
    simp only [isis_instance_area_address_create_validate]
    rw [if_neg (by simpa using h1), if_pos ⟨h2, h3⟩]
  · intro h1 h2
    simp only [isis_instance_area_address_create_validate]
    rw [if_neg (by simpa using h1),
      if_neg (by rintro ⟨ha, hb⟩; exact hb (h2 ha))]

/-- Witness for C2 at the concrete decoded address 49.0001.0102.0304.0506.00
with the router System-ID already fixed to its suffix: validation passes. -/
theorem c2_area_address_validate_witness :
    isis_instance_area_address_create_validate ⟨[1, 2, 3, 4, 5, 6], true⟩
      [73, 0, 1, 1, 2, 3, 4, 5, 6, 0] = .ok :=
  (c2_area_address_validate ⟨[1, 2, 3, 4, 5, 6], true⟩
      [73, 0, 1, 1, 2, 3, 4, 5, 6, 0] (by decide)).2.2 (by decide) (by decide)

/-- Reduction of the NB_EV_APPLY arm of isis_instance_area_address_delete
to the match on the removal result. -/
theorem area_address_delete_apply_eq (isis : IsisRouter) (area : IsisArea)
    (bytes : List Nat) :
    isis_instance_area_address_delete .apply isis area bytes =
      match remove_first (fun addrp => del_match addrp ⟨bytes.length, bytes⟩)
          area.area_addrs with
      | none => ⟨.err_inconsistency, isis, area⟩
      | some addrs2 =>
        if addrs2.length = 0 then
          ⟨.ok, ⟨List.replicate 6 0, false⟩, { area with area_addrs := addrs2 }⟩
        else
          ⟨.ok, isis, { area with area_addrs := addrs2 }⟩ := by
  simp [isis_instance_area_address_delete, ISIS_SYS_ID_LEN]

/-- Claim C3: an area-address delete that removes a stored address leaves
the address set one element shorter; if the set becomes empty the router
System-ID is zeroed and its flag cleared, and otherwise the router
identity is unchanged. -/
theorem c3_last_area_address_delete_clears_sysid (isis : IsisRouter)
    (area : IsisArea) (bytes : List Nat)
    (hok : (isis_instance_area_address_delete .apply isis area bytes).res = .ok) :
    ((isis_instance_area_address_delete .apply isis area bytes).area.area_addrs.length
        + 1 = area.area_addrs.length) ∧
    ((isis_instance_area_address_delete .apply isis area bytes).area.area_addrs
        = [] →
      (isis_instance_area_address_delete .apply isis area bytes).isis
        = ⟨List.replicate 6 0, false⟩) ∧
    ((isis_instance_area_address_delete .apply isis area bytes).area.area_addrs
        ≠ [] →
      (isis_instance_area_address_delete .apply isis area bytes).isis = isis) := by
  rw [area_address_delete_apply_eq] at hok ⊢
  rcases h : remove_first (fun addrp => del_match addrp ⟨bytes.length, bytes⟩)
      area.area_addrs with _ | addrs2
  · rw [h] at hok
    simp at hok
  · have hlen := remove_first_length _ _ _ h
    by_cases hz : addrs2.length = 0
    · have hnil : addrs2 = [] := List.length_eq_zero.mp hz
      simp [hz, hnil, ← hlen]
    · have hnil : ¬addrs2 = [] := by
        intro hcontra
        exact hz (by simp [hcontra])
      simp [hz, hnil, ← hlen]

/-- Witness for C3: deleting the single stored address of an area zeroes
the router System-ID and clears the flag. -/
theorem c3_last_area_address_delete_clears_sysid_witness :
    ((isis_instance_area_address_delete .apply ⟨[1, 2, 3, 4, 5, 6], true⟩
        ⟨"A", [⟨3, [73, 0, 1, 1, 2, 3, 4, 5, 6, 0]⟩], 3, false, false, false, true⟩
        [73, 0, 1, 1, 2, 3, 4, 5, 6, 0]).area.area_addrs.length + 1 = 1) ∧
    ((isis_instance_area_address_delete .apply ⟨[1, 2, 3, 4, 5, 6], true⟩
        ⟨"A", [⟨3, [73, 0, 1, 1, 2, 3, 4, 5, 6, 0]⟩], 3, false, false, false, true⟩
        [73, 0, 1, 1, 2, 3, 4, 5, 6, 0]).area.area_addrs = [] →
      (isis_instance_area_address_delete .apply ⟨[1, 2, 3, 4, 5, 6], true⟩
        ⟨"A", [⟨3, [73, 0, 1, 1, 2, 3, 4, 5, 6, 0]⟩], 3, false, false, false, true⟩
        [73, 0, 1, 1, 2, 3, 4, 5, 6, 0]).isis = ⟨List.replicate 6 0, false⟩) ∧
    ((isis_instance_area_address_delete .apply ⟨[1, 2, 3, 4, 5, 6], true⟩
        ⟨"A", [⟨3, [73, 0, 1, 1, 2, 3, 4, 5, 6, 0]⟩], 3, false, false, false, true⟩
        [73, 0, 1, 1, 2, 3, 4, 5, 6, 0]).area.area_addrs ≠ [] →
      (isis_instance_area_address_delete .apply ⟨[1, 2, 3, 4, 5, 6], true⟩
        ⟨"A", [⟨3, [73, 0, 1, 1, 2, 3, 4, 5, 6, 0]⟩], 3, false, false, false, true⟩
        [73, 0, 1, 1, 2, 3, 4, 5, 6, 0]).isis = ⟨[1, 2, 3, 4, 5, 6], true⟩) :=
  c3_last_area_address_delete_clears_sysid ⟨[1, 2, 3, 4, 5, 6], true⟩
    ⟨"A", [⟨3, [73, 0, 1, 1, 2, 3, 4, 5, 6, 0]⟩], 3, false, false, false, true⟩
    [73, 0, 1, 1, 2, 3, 4, 5, 6, 0] (by decide)

/-- Claim C4: an area-address create applied while the System-ID is
already set is a silent no-op when an exact duplicate (by the code's
length-and-bytes comparison) is already stored: success, and both the
router identity and the area are returned unchanged. -/
theorem c4_duplicate_area_address_noop (isis : IsisRouter) (area : IsisArea)
    (addrr : AreaAddr) (hset : isis.sysid_set = true)
    (hdup : area.area_addrs.any (fun addrp => dup_match addrp addrr) = true) :
    isis_instance_area_address_create_apply isis area addrr
      = ⟨.ok, isis, area⟩ := by
  simp [isis_instance_area_address_create_apply, hset, hdup]

/-- Witness for C4: re-creating the address already stored on the area is
accepted and changes nothing. -/
theorem c4_duplicate_area_address_noop_witness :
    isis_instance_area_address_create_apply ⟨[1, 2, 3, 4, 5, 6], true⟩
      ⟨"A", [⟨3, [73, 0, 1, 1, 2, 3, 4, 5, 6, 0]⟩], 3, false, false, false, true⟩
      ⟨10, [73, 0, 1, 1, 2, 3, 4, 5, 6, 0]⟩
      = ⟨.ok, ⟨[1, 2, 3, 4, 5, 6], true⟩,
          ⟨"A", [⟨3, [73, 0, 1, 1, 2, 3, 4, 5, 6, 0]⟩], 3, false, false, false,
            true⟩⟩ :=
  c4_duplicate_area_address_noop ⟨[1, 2, 3, 4, 5, 6], true⟩
    ⟨"A", [⟨3, [73, 0, 1, 1, 2, 3, 4, 5, 6, 0]⟩], 3, false, false, false, true⟩
    ⟨10, [73, 0, 1, 1, 2, 3, 4, 5, 6, 0]⟩ (by decide) (by decide)

/-- Claim C5: a circuit create applied with a missing owning area takes
the fatal branch; when the area exists the handler returns success with
the constructed circuit bound into the change node's slot, and that
circuit's state is CONF or UP — so given the area's existence the fatal
branch is unreachable. -/
theorem c5_circuit_create_requires_area (areas : List IsisArea)
    (ifp : Interface) (area_tag : String) :
    (isis_area_lookup areas area_tag = none →
      lib_interface_isis_create .apply areas ifp area_tag = .fatal) ∧
    (∀ area, isis_area_lookup areas area_tag = some area →
      lib_interface_isis_create .apply areas ifp area_tag
          = .done .ok (some (isis_circuit_create area ifp)) ∧
        ((isis_circuit_create area ifp).state = .C_STATE_CONF ∨
          (isis_circuit_create area ifp).state = .C_STATE_UP)) := by
  have hstate : ∀ area, (isis_circuit_create area ifp).state = .C_STATE_CONF ∨
      (isis_circuit_create area ifp).state = .C_STATE_UP := by
    intro area
    by_cases hop : ifp.operational = true
    · right; simp [isis_circuit_create, hop]
    · left; simp [isis_circuit_create, hop]
  constructor
  · intro hmiss
    simp [lib_interface_isis_create, hmiss]
  · intro area hfound
    refine ⟨?_, hstate area⟩
    simp [lib_interface_isis_create, hfound, hstate area]

/-- Witness for C5: with no areas registered the create is fatal; with the
area "A" registered it succeeds and binds a circuit in the UP state. -/
theorem c5_circuit_create_requires_area_witness :
    lib_interface_isis_create .apply [] ⟨"eth0", "default", true⟩ "A"
        = .fatal ∧
    lib_interface_isis_create .apply [isis_area_create "A"]
        ⟨"eth0", "default", true⟩ "A"
        = .done .ok (some (isis_circuit_create (isis_area_create "A")
            ⟨"eth0", "default", true⟩)) :=
  ⟨(c5_circuit_create_requires_area [] ⟨"eth0", "default", true⟩ "A").1 rfl,
    ((c5_circuit_create_requires_area [isis_area_create "A"]
        ⟨"eth0", "default", true⟩ "A").2 (isis_area_create "A")
      (by simp [isis_area_lookup, isis_area_create])).1⟩

/-- Claim C6, counterexample: the claim and spec say ipv6-routing create
passes (current ipv4-routing presence, true) to the live address-family
update, but the source reads the presence of ../ipv6-routing — the node
being created itself — so on a circuit with ipv4-routing absent it passes
(true, true) instead of (false, true).  The ipv4-routing create path does
match the claim. -/
theorem c6_ipv6_routing_create_reads_wrong_sibling :
    (∀ cfg : IfIsisConfig,
      lib_interface_isis_ipv4_routing_create_af cfg = (true, cfg.ipv6_routing)) ∧
    lib_interface_isis_ipv6_routing_create_af ⟨false, true⟩ = (true, true) ∧
    ipv6_routing_create_af_spec ⟨false, true⟩ = (false, true) ∧
    lib_interface_isis_ipv6_routing_create_af ⟨false, true⟩
      ≠ ipv6_routing_create_af_spec ⟨false, true⟩ :=
  ⟨fun _ => rfl, rfl, rfl, by decide⟩

/-- Claim C7: every area-password and domain-password leaf handler
(block create, password, password-type, authenticate-snp) mutates nothing
and performs no authentication action at any event, and each block's
apply-finish hook performs exactly one derived action — cleartext for the
cleartext type, HMAC-MD5 for the keyed type, at level 1 for the area
password and level 2 for the domain password, with the snp-auth value
passed through unchanged. -/
theorem c7_password_block_single_derived_action :
    (∀ (ev : NbEvent) (area : IsisArea),
      isis_instance_area_password_create ev area = (.ok, area, []) ∧
      isis_instance_area_password_password_modify ev area = (.ok, area, []) ∧
      isis_instance_area_password_password_type_modify ev area
        = (.ok, area, []) ∧
      isis_instance_area_password_authenticate_snp_modify ev area
        = (.ok, area, []) ∧
      isis_instance_domain_password_create ev area = (.ok, area, []) ∧
      isis_instance_domain_password_password_modify ev area = (.ok, area, []) ∧
      isis_instance_domain_password_password_type_modify ev area
        = (.ok, area, []) ∧
      isis_instance_domain_password_authenticate_snp_modify ev area
        = (.ok, area, [])) ∧
    (∀ (pw : String) (ty : PasswdType) (snp : Nat),
      (area_password_apply_finish pw ty snp).length = 1 ∧
      (domain_password_apply_finish pw ty snp).length = 1) ∧
    (∀ (pw : String) (snp : Nat),
      area_password_apply_finish pw .ISIS_PASSWD_TYPE_CLEARTXT snp
        = [.passwd_cleartext_set IS_LEVEL_1 pw snp] ∧
      area_password_apply_finish pw .ISIS_PASSWD_TYPE_HMAC_MD5 snp
        = [.passwd_hmac_md5_set IS_LEVEL_1 pw snp] ∧
      domain_password_apply_finish pw .ISIS_PASSWD_TYPE_CLEARTXT snp
        = [.passwd_cleartext_set IS_LEVEL_2 pw snp] ∧
      domain_password_apply_finish pw .ISIS_PASSWD_TYPE_HMAC_MD5 snp
        = [.passwd_hmac_md5_set IS_LEVEL_2 pw snp]) :=
  ⟨fun _ _ => ⟨rfl, rfl, rfl, rfl, rfl, rfl, rfl, rfl⟩,
    fun pw ty snp => by
      cases ty <;>
        simp [area_password_apply_finish, domain_password_apply_finish],
    fun _ _ => ⟨rfl, rfl, rfl, rfl⟩⟩

/-- Claim C8: in the validate phase of a circuit area-tag modify, an
interface lookup miss passes vacuously, and a successful lookup that finds
an already-bound circuit whose area tag differs from the proposed tag
fails validation. -/
theorem c8_area_tag_modify_validate (interfaces : List Interface)
    (init_circ_list : List Circuit) (ifname vrfname area_tag : String) :
    (if_lookup_by_name interfaces ifname vrfname = none →
      lib_interface_isis_area_tag_modify .validate interfaces init_circ_list
        ifname vrfname area_tag = .ok) ∧
    (∀ ifp circuit tag,
      if_lookup_by_name interfaces ifname vrfname = some ifp →
      circuit_lookup_by_ifp init_circ_list ifp = some circuit →
      circuit.area = some tag → tag ≠ area_tag →
      lib_interface_isis_area_tag_modify .validate interfaces init_circ_list
        ifname vrfname area_tag = .err_validation) := by
  constructor
  · intro hmiss
    simp [lib_interface_isis_area_tag_modify, hmiss]
  · intro ifp circuit tag hifp hcirc harea hne
    simp [lib_interface_isis_area_tag_modify, hifp, hcirc, harea, hne]

/-- Witness for C8: a missing interface passes; an interface whose circuit
is already bound to area "B" fails validation of the proposed tag "A". -/
theorem c8_area_tag_modify_validate_witness :
    lib_interface_isis_area_tag_modify .validate [] [] "eth0" "default" "A"
        = .ok ∧
    lib_interface_isis_area_tag_modify .validate
        [⟨"eth0", "default", true⟩] [⟨.C_STATE_UP, "eth0", some "B"⟩]
        "eth0" "default" "A" = .err_validation :=
  ⟨(c8_area_tag_modify_validate [] [] "eth0" "default" "A").1 rfl,
    (c8_area_tag_modify_validate [⟨"eth0", "default", true⟩]
        [⟨.C_STATE_UP, "eth0", some "B"⟩] "eth0" "default" "A").2
      ⟨"eth0", "default", true⟩ ⟨.C_STATE_UP, "eth0", some "B"⟩ "B"
      (by simp [if_lookup_by_name])
      (by simp [circuit_lookup_by_ifp]) rfl (by decide)⟩

/-- Claim C9: a circuit delete applied with a bound circuit tears it down
only by driving the connect/disconnect state machine — interface-down then
area-disable from UP, area-disable alone from CONF, interface-down alone
from INIT — never by direct deallocation; with no bound circuit it returns
an inconsistency error and drives no transition. -/
theorem c9_circuit_delete_drives_csm (slot : Option Circuit) :
    (slot = none →
      lib_interface_isis_delete .apply slot = (.err_inconsistency, [])) ∧
    (∀ circuit, slot = some circuit →
      (lib_interface_isis_delete .apply slot).1 = .ok ∧
      (circuit.state = .C_STATE_UP →
        (lib_interface_isis_delete .apply slot).2
          = [.csm_state_change .IF_DOWN_FROM_Z,
              .csm_state_change .ISIS_DISABLE]) ∧
      (circuit.state = .C_STATE_CONF →
        (lib_interface_isis_delete .apply slot).2
          = [.csm_state_change .ISIS_DISABLE]) ∧
      (circuit.state = .C_STATE_INIT →
        (lib_interface_isis_delete .apply slot).2
          = [.csm_state_change .IF_DOWN_FROM_Z]) ∧
      TeardownAction.free_circuit ∉ (lib_interface_isis_delete .apply slot).2) := by
  constructor
  · intro hnone
    simp [lib_interface_isis_delete, hnone]
  · intro circuit hsome
    subst hsome
    cases hst : circuit.state <;>
      simp [lib_interface_isis_delete, hst]

/-- Witness for C9: an unbound node errs with no transitions; a bound UP
circuit is driven down through interface-down then area-disable. -/
theorem c9_circuit_delete_drives_csm_witness :
    lib_interface_isis_delete .apply (none : Option Circuit)
        = (.err_inconsistency, []) ∧
    (lib_interface_isis_delete .apply
        (some ⟨.C_STATE_UP, "eth0", some "A"⟩)).2
      = [.csm_state_change .IF_DOWN_FROM_Z, .csm_state_change .ISIS_DISABLE] :=
  ⟨(c9_circuit_delete_drives_csm none).1 rfl,
    ((c9_circuit_delete_drives_csm (some ⟨.C_STATE_UP, "eth0", some "A"⟩)).2
      ⟨.C_STATE_UP, "eth0", some "A"⟩ rfl).2.1 rfl⟩

/-- Claim C10: every apply-only handler embedded here — instance create
and delete, area-address delete, attached and overload create and delete,
is-type and metric-style modify, circuit create and delete — returns
success at any event other than apply and leaves every piece of live state
it touches (area table, areas, router identity, circuit slot) unchanged,
performing no validation and no staging. -/
theorem c10_apply_only_handlers_noop_on_other_events (ev : NbEvent)
    (hev : ev ≠ .apply) :
    (∀ tag areas, isis_instance_create ev tag areas = ⟨.ok, areas, none⟩) ∧
    (∀ tag areas, isis_instance_delete ev tag areas = (.ok, areas)) ∧
    (∀ isis area bytes,
      isis_instance_area_address_delete ev isis area bytes = ⟨.ok, isis, area⟩) ∧
    (∀ area, isis_instance_attached_create ev area = (.ok, area)) ∧
    (∀ area, isis_instance_attached_delete ev area = (.ok, area)) ∧
    (∀ area, isis_instance_overload_create ev area = (.ok, area)) ∧
    (∀ area, isis_instance_overload_delete ev area = (.ok, area)) ∧
    (∀ ty area, isis_instance_is_type_modify ev ty area = (.ok, area)) ∧
    (∀ style area,
      isis_instance_metric_style_modify ev style area = (.ok, area)) ∧
    (∀ areas ifp tag, lib_interface_isis_create ev areas ifp tag
      = .done .ok none) ∧
    (∀ slot, lib_interface_isis_delete ev slot = (.ok, [])) := by
  refine ⟨?_, ?_, ?_, ?_, ?_, ?_, ?_, ?_, ?_, ?_, ?_⟩ <;> intros <;>
    simp only [isis_instance_create, isis_instance_delete,
      isis_instance_area_address_delete, isis_instance_attached_create,
      isis_instance_attached_delete, isis_instance_overload_create,
      isis_instance_overload_delete, isis_instance_is_type_modify,
      isis_instance_metric_style_modify, lib_interface_isis_create,
      lib_interface_isis_delete] <;>
    rw [if_pos hev]

/-- Witness for C10 at the validate event with concrete state: the
instance create and the circuit delete are no-ops. -/
theorem c10_apply_only_handlers_noop_on_other_events_witness :
    isis_instance_create .validate "A" [] = ⟨.ok, [], none⟩ ∧
    lib_interface_isis_delete .validate
      (some ⟨.C_STATE_UP, "eth0", some "A"⟩) = (.ok, []) :=
  ⟨(c10_apply_only_handlers_noop_on_other_events .validate (by decide)).1 "A" [],
    (c10_apply_only_handlers_noop_on_other_events .validate (by decide)).2.2.2.2.2.2.2.2.2.2
      (some ⟨.C_STATE_UP, "eth0", some "A"⟩)⟩

end IsisNb
